import Mathlib

/- Verification of the failure-detection and adaptive-failover core of the
   cs538 network-resilience experiments.  The Lean definitions below are a
   shallow embedding of the Python sources:
     - sdn_controller.py  (OrionController: fail-closed / fail-static decision)
     - bgp_sdn_exper.py   (HealthAwareSwitch: controller liveness monitor)
     - bgp_experiment.py  (SDNBGPExperiment: route snapshots and recovery)
   Machine arithmetic is modelled with Int and Rat (Python floats 0.5 and
   n/2 are exact binary rationals).  Python code that raises an exception is
   modelled with Option, where none stands for the raised exception. -/

/-- The two failover regimes of OrionController (sdn_controller.py):
    FailClosed reroutes around the failed subset, FailStatic freezes the
    current forwarding state. -/
inductive Regime where
  | FailClosed : Regime
  | FailStatic : Regime
deriving DecidableEq, Repr

/-- A flow-table action issued by the controller.  The FailClosed branch of
    _recompute_routes calls _install_unicast_via with the alive spine set;
    we record that call as an action. -/
inductive FlowAction where
  | installUnicastVia : Finset String → FlowAction
deriving DecidableEq

/-- Python true division as used in _recompute_routes (ratio = failed /
    total): the exact rational when the denominator is nonzero, none for
    the ZeroDivisionError raised on a zero denominator. -/
def pyDiv (a b : ℤ) : Option ℚ :=
  if b = 0 then none else some ((a : ℚ) / (b : ℚ))

/-- OrionController.capacity_degradation_threshold = 0.5, line 24 of
    sdn_controller.py (the float 0.5 is exactly the rational 1/2). -/
def capacity_degradation_threshold : ℚ := 1 / 2

/-- The body of OrionController._recompute_routes (lines 62 to 73), with the
    hardcoded spine total and the class threshold kept as parameters so that
    other member counts can be examined against the same body.
    failed = total - len(self.alive_spines); ratio = failed / total;
    ratio < threshold gives FailClosed together with the
    _install_unicast_via call; otherwise FailStatic with no flow change. -/
def recompute_routes_body (threshold : ℚ) (total : ℤ) (alive_spines : Finset String) :
    Option (Regime × List FlowAction) := do
  let failed : ℤ := total - (alive_spines.card : ℤ)
  let ratio ← pyDiv failed total
  if ratio < threshold then
    pure (Regime.FailClosed, [FlowAction.installUnicastVia alive_spines])
  else
    pure (Regime.FailStatic, [])

/-- OrionController._recompute_routes as it runs in the module: total is the
    hardcoded 2 and the threshold is the class attribute. -/
def recompute_routes (alive_spines : Finset String) : Option (Regime × List FlowAction) :=
  recompute_routes_body capacity_degradation_threshold 2 alive_spines

/-- The regime chosen by _recompute_routes (none when evaluation raised). -/
def recompute_decision (alive_spines : Finset String) : Option Regime :=
  (recompute_routes alive_spines).map Prod.fst

/-- The flow actions issued by _recompute_routes (none when evaluation
    raised). -/
def recompute_actions (alive_spines : Finset String) : Option (List FlowAction) :=
  (recompute_routes alive_spines).map Prod.snd

/-- The ratio failed / total computed by _recompute_routes for the hardcoded
    two-spine domain. -/
def degradation_ratio (alive_spines : Finset String) : ℚ :=
  ((2 - (alive_spines.card : ℤ) : ℤ) : ℚ) / ((2 : ℤ) : ℚ)

/-- The two datapath dispatcher states the handler reacts to. -/
inductive Dispatcher where
  | MAIN : Dispatcher
  | DEAD : Dispatcher
deriving DecidableEq

/-- OrionController._state_change_handler (lines 43 to 60) restricted to its
    effect on alive_spines: datapath ids 1 and 2 stand for sp1 and sp2; a
    MAIN event inserts the spine, a DEAD event removes it, and in both cases
    _recompute_routes is invoked exactly when membership changed (the
    returned flag). -/
def state_change_handler (alive_spines : Finset String) (dpid : ℕ) (ev : Dispatcher) :
    Finset String × Bool :=
  if dpid = 1 ∨ dpid = 2 then
    let sp := "sp" ++ toString dpid
    match ev with
    | Dispatcher.MAIN =>
        if sp ∈ alive_spines then (alive_spines, false)
        else (insert sp alive_spines, true)
    | Dispatcher.DEAD =>
        if sp ∈ alive_spines then (alive_spines.erase sp, true)
        else (alive_spines, false)
  else (alive_spines, false)

/-- HealthAwareSwitch.health_state is initialised to healthy in __init__
    (bgp_sdn_exper.py line 73). -/
def initial_health_state : String := "healthy"

/-- One iteration of HealthAwareSwitch._monitor_ctrl (lines 80 to 88): the
    candidate state is healthy when the single ping succeeded (the output
    contains 1 received) and unknown otherwise, and the field is overwritten
    whenever the candidate differs from the current value. -/
def monitor_ctrl_step (health_state : String) (ping_received : Bool) : String :=
  let state := if ping_received then "healthy" else "unknown"
  if state ≠ health_state then state else health_state

/-- The monitor loop run over a finite sequence of ping outcomes. -/
def monitor_ctrl_run (health_state : String) (pings : List Bool) : String :=
  pings.foldl monitor_ctrl_step health_state

/-- A parsed BGP path attribute as the snapshot code reads it from the
    vtysh show ip bgp json output: the fields inspected are valid, best,
    the nexthop ip list and the as path. -/
structure PathAttr where
  valid : Bool
  best : Bool
  nexthop_ips : List String
  as_path : String
deriving DecidableEq, Repr

/-- A route record as stored by snapshot_routes in bgp_experiment.py: the
    field pfx renders the dict key prefix (prefix is reserved in Lean),
    nexthop the first nexthop ip, as_path the path attribute. -/
structure RouteRecord where
  pfx : String
  nexthop : String
  as_path : String
deriving DecidableEq, Repr

/-- The routes object of the parsed JSON: an association list from prefix
    to its list of path attributes, index 0 being the first attribute. -/
abbrev RIB := List (String × List PathAttr)

/-- The list comprehension of snapshot_routes (lines 506 to 512), as
    written: keep one record per prefix whose first attribute has both the
    valid and the best flag, taking the first nexthop ip; indexing an empty
    attribute or nexthop list raises (none), and a raised exception aborts
    the whole comprehension. -/
def snapshot_of_routes : RIB → Option (List RouteRecord)
  | [] => some []
  | (p, attrs) :: rest => do
    let a0 ← attrs.head?
    if a0.valid && a0.best then
      let nh ← a0.nexthop_ips.head?
      let tail ← snapshot_of_routes rest
      pure (⟨p, nh, a0.as_path⟩ :: tail)
    else
      snapshot_of_routes rest

/-- The names bound at the top of module bgp_experiment.py (lines 17 to
    25): the mininet imports plus os, time, subprocess and Path.  The name
    json is not among them, although snapshot_routes and the dead block
    under _install_fail_static call json.loads. -/
def bgp_experiment_imported_names : List String :=
  ["Mininet", "Controller", "RemoteController", "OVSSwitch", "Host", "CLI",
   "setLogLevel", "info", "error", "TCLink", "os", "time", "subprocess", "Path"]

/-- Whether the name json is bound in module bgp_experiment (it is not). -/
def json_is_bound : Bool := bgp_experiment_imported_names.contains ("json")

/-- The router names of SDNBGPExperiment.peers_map, in iteration order. -/
def peers_map_routers : List String := ["bgp1", "bgp2", "bgp3"]

/-- The part of SDNBGPExperiment state that snapshot_routes and recovery
    read and write: last_dynamic_routes, a dict from router name to its
    stored snapshot, modelled as an association list. -/
structure ExperimentState where
  last_dynamic_routes : List (String × List RouteRecord)
deriving DecidableEq, Repr

/-- The try block run for one router inside snapshot_routes: the vtysh
    output would be parsed with json.loads and filtered, but because json
    is unbound in the module the call raises NameError before anything is
    parsed; unparseable output (rib_of gives none) or a missing key would
    raise just the same.  none models the raised-and-caught exception; the
    except branch only logs the failure. -/
def capture_router (rib_of : String → Option RIB) (router : String) :
    Option (List RouteRecord) :=
  if json_is_bound then do
    let routes ← rib_of router
    snapshot_of_routes routes
  else
    none

/-- SDNBGPExperiment.snapshot_routes (lines 495 to 514): first rebinds
    last_dynamic_routes to a fresh empty dict, then loops over peers_map,
    storing an entry only for a router whose capture succeeded. -/
def snapshot_routes (rib_of : String → Option RIB) (st : ExperimentState) :
    ExperimentState :=
  let _ := st.last_dynamic_routes
  { last_dynamic_routes :=
      peers_map_routers.foldl
        (fun acc router =>
          match capture_router rib_of router with
          | some snap => acc ++ [(router, snap)]
          | none => acc)
        [] }

/-- One entry of a router kernel routing table with the fields the recovery
    code manipulates: destination prefix (pfx), gateway (via) and the
    protocol tag; the routes reinstalled by recovery carry proto zebra. -/
structure KernelRoute where
  pfx : String
  via : String
  proto : String
deriving DecidableEq, Repr

/-- Step 1 of recover_bgp_after_link_flap: ip route flush proto zebra drops
    exactly the zebra-tagged entries. -/
def ip_route_flush_proto_zebra (table : List KernelRoute) : List KernelRoute :=
  table.filter (fun r => r.proto != "zebra")

/-- One iteration of step 2: ip route add pfx via nh proto zebra.  The
    kernel refuses the add (EEXIST) when an entry for the same prefix is
    already present, leaving the table unchanged; otherwise the new entry
    is appended tagged proto zebra. -/
def ip_route_add_proto_zebra (table : List KernelRoute) (p nh : String) :
    List KernelRoute :=
  if table.any (fun r => r.pfx == p) then table
  else table ++ [⟨p, nh, "zebra"⟩]

/-- Step 2 of recover_bgp_after_link_flap for one router: the loop over the
    stored snapshot issuing one ip route add per record (lines 561 to 562). -/
def reinstall_snapshot (table : List KernelRoute) (snap : List RouteRecord) :
    List KernelRoute :=
  snap.foldl (fun t r => ip_route_add_proto_zebra t r.pfx r.nexthop) table

/-- The outcome of the per-router recovery body: the resulting kernel table
    and whether the daemon restart of step 3 succeeded. -/
structure RecoverOutcome where
  table : List KernelRoute
  daemon_ready : Bool
deriving DecidableEq, Repr

/-- The per-router body of SDNBGPExperiment.recover_bgp_after_link_flap
    (lines 554 to 564): step 1 flushes the zebra-tagged routes, step 2
    reinstalls the stored snapshot, step 3 calls setup_frr, which rewrites
    config files and restarts zebra and bgpd but issues no route command,
    so the kernel table is the same whether or not the restart succeeds;
    daemon_ok reports that external outcome. -/
def recover_router (snap : List RouteRecord) (table : List KernelRoute)
    (daemon_ok : Bool) : RecoverOutcome :=
  let t1 := ip_route_flush_proto_zebra table
  let t2 := reinstall_snapshot t1 snap
  { table := t2, daemon_ready := daemon_ok }

/-- SDNBGPExperiment.recover_bgp_after_link_flap: the per-router body run
    for each router of peers_map with the snapshot stored for it, an absent
    entry yielding the empty list as in last_dynamic_routes.get(router, []). -/
def recover_bgp_after_link_flap (st : ExperimentState)
    (tables : String → List KernelRoute) (daemon_ok : String → Bool)
    (router : String) : RecoverOutcome :=
  recover_router ((List.lookup router st.last_dynamic_routes).getD [])
    (tables router) (daemon_ok router)

/-- The zebra-tagged (recovery-installed) part of a kernel table. -/
def zebra_routes (table : List KernelRoute) : List KernelRoute :=
  table.filter (fun r => r.proto == "zebra")

/-- The route-touching and daemon-touching commands the recovery and
    fail-static code can issue on a router. -/
inductive RouterCmd where
  | flushProtoZebra : RouterCmd
  | ipRouteAdd : String → String → RouterCmd
  | vtyshShowIpBgpJson : RouterCmd
  | vtyshIpRouteDistance : String → String → ℕ → RouterCmd
  | setupFrr : RouterCmd
deriving DecidableEq, Repr

/-- Whether a command installs a route with an explicit administrative
    distance (the vtysh ip route form with a distance argument). -/
def is_admin_distance_install : RouterCmd → Bool
  | RouterCmd.vtyshIpRouteDistance _ _ _ => true
  | _ => false

/-- The command sequence recover_bgp_after_link_flap issues for one router:
    the flush, one plain ip route add per snapshot record (ip route add
    PREFIX via NEXTHOP proto zebra, with no distance argument), then the
    setup_frr daemon restart. -/
def recover_router_cmds (snap : List RouteRecord) : List RouterCmd :=
  RouterCmd.flushProtoZebra ::
    (snap.map (fun r => RouterCmd.ipRouteAdd r.pfx r.nexthop) ++ [RouterCmd.setupFrr])

/-- BGPRouter._install_fail_static as written (lines 277 to 283): the
    method body consists of the vtysh RIB query alone; the parsing and
    distance-250 install loop below it (lines 285 to 301) is indented at
    class level, outside the method, so the method issues no install
    command.  That class-level block runs once at import time, raises
    NameError on json.loads, and is swallowed by its except branch. -/
def install_fail_static_cmds : List RouterCmd := [RouterCmd.vtyshShowIpBgpJson]

/-- The snapshot record of the end-to-end scenario of the spec: prefix
    10.0.2.0/24 reachable via 10.0.12.2, learned from AS 65002. -/
def snapEx : List RouteRecord := [⟨"10.0.2.0/24", "10.0.12.2", "65002"⟩]

/-- An experiment state holding a previously captured snapshot for bgp1. -/
def stEx : ExperimentState := ⟨[("bgp1", snapEx)]⟩

/-- A concrete parsed RIB with one valid-and-best record, one valid but not
    best record, and one best but not valid record. -/
def ribEx : RIB :=
  [("10.0.2.0/24", [⟨true, true, ["10.0.12.2"], "65002"⟩]),
   ("10.0.3.0/24", [⟨true, false, ["10.0.23.2"], "65002 65003"⟩]),
   ("10.0.9.0/24", [⟨false, true, ["10.0.12.9"], "65009"⟩])]

/-- Each monitor iteration replaces the state with a value computed from the
    latest single ping alone. -/
lemma monitor_ctrl_step_eq (s : String) (p : Bool) :
    monitor_ctrl_step s p = if p then "healthy" else "unknown" := by
  by_cases h : (if p then "healthy" else "unknown") = s
  · simp [monitor_ctrl_step, h]
  · simp [monitor_ctrl_step, h]

lemma monitor_ctrl_run_append (s : String) (ps : List Bool) (p : Bool) :
    monitor_ctrl_run s (ps ++ [p]) = monitor_ctrl_step (monitor_ctrl_run s ps) p := by
  unfold monitor_ctrl_run
  rw [List.foldl_append]
  rfl

lemma monitor_ctrl_run_two_valued (ps : List Bool) (s : String)
    (h : s = "healthy" ∨ s = "unknown") :
    monitor_ctrl_run s ps = "healthy" ∨ monitor_ctrl_run s ps = "unknown" := by
  induction ps generalizing s with
  | nil => exact h
  | cons p ps ih =>
    have hstep : monitor_ctrl_run s (p :: ps) = monitor_ctrl_run (monitor_ctrl_step s p) ps := rfl
    rw [hstep]
    apply ih
    rw [monitor_ctrl_step_eq]
    cases p
    · right; rfl
    · left; rfl

/-- The module-level _recompute_routes always runs the nonzero-denominator
    branch of the division and picks the regime by comparing the ratio with
    the threshold. -/
lemma recompute_routes_eq (alive_spines : Finset String) :
    recompute_routes alive_spines =
      if degradation_ratio alive_spines < capacity_degradation_threshold
      then some (Regime.FailClosed, [FlowAction.installUnicastVia alive_spines])
      else some (Regime.FailStatic, []) := by
  have h2 : ((2 : ℤ)) ≠ 0 := by norm_num
  simp [recompute_routes, recompute_routes_body, pyDiv, degradation_ratio, h2]

lemma recompute_decision_eq (alive_spines : Finset String) :
    recompute_decision alive_spines =
      some (if degradation_ratio alive_spines < capacity_degradation_threshold
            then Regime.FailClosed else Regime.FailStatic) := by
  rw [recompute_decision, recompute_routes_eq]
  split <;> rfl

lemma recompute_actions_eq (alive_spines : Finset String) :
    recompute_actions alive_spines =
      some (if degradation_ratio alive_spines < capacity_degradation_threshold
            then [FlowAction.installUnicastVia alive_spines] else []) := by
  rw [recompute_actions, recompute_routes_eq]
  split <;> rfl

lemma degradation_ratio_card (alive_spines : Finset String) :
    degradation_ratio alive_spines = (2 - (alive_spines.card : ℚ)) / 2 := by
  unfold degradation_ratio
  push_cast
  ring

lemma reinstall_nil (t : List KernelRoute) : reinstall_snapshot t [] = t := rfl

lemma reinstall_cons (t : List KernelRoute) (r : RouteRecord) (snap : List RouteRecord) :
    reinstall_snapshot t (r :: snap) =
      reinstall_snapshot (ip_route_add_proto_zebra t r.pfx r.nexthop) snap := rfl

/-- An entry already present survives the whole reinstall loop: each add
    either leaves the table alone or appends at the end. -/
lemma reinstall_mem_of_mem (snap : List RouteRecord) :
    ∀ (t : List KernelRoute) (x : KernelRoute), x ∈ t → x ∈ reinstall_snapshot t snap := by
  induction snap with
  | nil => intro t x hx; exact hx
  | cons r snap ih =>
    intro t x hx
    rw [reinstall_cons]
    apply ih
    unfold ip_route_add_proto_zebra
    split
    · exact hx
    · exact List.mem_append_left _ hx

/-- The reinstall loop never shrinks the table. -/
lemma reinstall_length_le (snap : List RouteRecord) :
    ∀ t : List KernelRoute, t.length ≤ (reinstall_snapshot t snap).length := by
  induction snap with
  | nil => intro t; exact le_refl _
  | cons r snap ih =>
    intro t
    rw [reinstall_cons]
    refine le_trans ?_ (ih _)
    unfold ip_route_add_proto_zebra
    split
    · exact le_refl _
    · simp

/-- The reinstall loop only adds zebra-tagged entries, so flushing proto
    zebra afterwards gives the same table as flushing before. -/
lemma reinstall_flush (snap : List RouteRecord) :
    ∀ t : List KernelRoute,
      ip_route_flush_proto_zebra (reinstall_snapshot t snap) =
        ip_route_flush_proto_zebra t := by
  induction snap with
  | nil => intro t; rfl
  | cons r snap ih =>
    intro t
    rw [reinstall_cons, ih]
    unfold ip_route_add_proto_zebra
    split
    · rfl
    · unfold ip_route_flush_proto_zebra
      rw [List.filter_append]
      simp

/-- Every entry after the reinstall loop is either an original entry or a
    zebra-tagged route built from a snapshot record. -/
lemma reinstall_mem_src (snap : List RouteRecord) :
    ∀ (t : List KernelRoute) (x : KernelRoute), x ∈ reinstall_snapshot t snap →
      x ∈ t ∨ ∃ r ∈ snap, x = KernelRoute.mk r.pfx r.nexthop "zebra" := by
  induction snap with
  | nil => intro t x hx; exact Or.inl hx
  | cons r snap ih =>
    intro t x hx
    rw [reinstall_cons] at hx
    rcases ih _ _ hx with h | ⟨r2, hr2, hx2⟩
    · unfold ip_route_add_proto_zebra at h
      split at h
      · exact Or.inl h
      · rcases List.mem_append.mp h with h1 | h1
        · exact Or.inl h1
        · refine Or.inr ⟨r, List.mem_cons_self r snap, ?_⟩
          simpa using h1
    · exact Or.inr ⟨r2, List.mem_cons_of_mem _ hr2, hx2⟩

/-- After the reinstall loop, every snapshot prefix is matched by some table
    entry: either its add went through, or an existing entry with the same
    prefix blocked it. -/
lemma reinstall_covers (snap : List RouteRecord) :
    ∀ (t : List KernelRoute) (r : RouteRecord), r ∈ snap →
      ∃ x ∈ reinstall_snapshot t snap, x.pfx = r.pfx := by
  induction snap with
  | nil => intro t r hr; cases hr
  | cons r0 snap ih =>
    intro t r hr
    rw [reinstall_cons]
    rcases List.mem_cons.mp hr with rfl | hr2
    · by_cases hb : (t.any fun x => x.pfx == r.pfx) = true
      · obtain ⟨x, hx, hpx⟩ := List.any_eq_true.mp hb
        refine ⟨x, ?_, by simpa using hpx⟩
        apply reinstall_mem_of_mem
        unfold ip_route_add_proto_zebra
        rw [if_pos hb]
        exact hx
      · refine ⟨⟨r.pfx, r.nexthop, "zebra"⟩, ?_, rfl⟩
        apply reinstall_mem_of_mem
        unfold ip_route_add_proto_zebra
        rw [if_neg hb]
        exact List.mem_append_right _ (List.mem_singleton_self _)
    · exact ih _ r hr2

/-- A nonempty snapshot leaves a nonempty table behind. -/
lemma reinstall_ne_nil (snap : List RouteRecord) (t : List KernelRoute)
    (h : snap ≠ []) : reinstall_snapshot t snap ≠ [] := by
  obtain ⟨r, hr⟩ : ∃ r, r ∈ snap := by
    cases snap with
    | nil => exact absurd rfl h
    | cons a l => exact ⟨a, List.mem_cons_self a l⟩
  obtain ⟨x, hx, _⟩ := reinstall_covers snap t r hr
  exact List.ne_nil_of_mem hx

/-- The reinstall loop keeps the zebra-tagged prefixes duplicate-free: an
    add is refused whenever the prefix is already present. -/
lemma reinstall_zebra_nodup (snap : List RouteRecord) :
    ∀ t : List KernelRoute,
      ((zebra_routes t).map (fun r => r.pfx)).Nodup →
      ((zebra_routes (reinstall_snapshot t snap)).map (fun r => r.pfx)).Nodup := by
  induction snap with
  | nil => intro t h; exact h
  | cons r snap ih =>
    intro t h
    rw [reinstall_cons]
    apply ih
    unfold ip_route_add_proto_zebra
    split
    · exact h
    · next hb =>
      unfold zebra_routes at h ⊢
      rw [List.filter_append, List.map_append]
      have hone : List.filter (fun x => x.proto == "zebra")
          [(⟨r.pfx, r.nexthop, "zebra"⟩ : KernelRoute)] =
          [⟨r.pfx, r.nexthop, "zebra"⟩] := by simp
      rw [hone]
      rw [List.nodup_append]
      refine ⟨h, List.nodup_singleton _, ?_⟩
      intro a ha1 ha2
      simp only [List.map_cons, List.map_nil, List.mem_singleton] at ha2
      obtain ⟨x, hx1, hx2⟩ := List.mem_map.mp ha1
      have hxt : x ∈ t := List.mem_of_mem_filter hx1
      apply hb
      refine List.any_eq_true.mpr ⟨x, hxt, ?_⟩
      rw [hx2, ha2]
      exact beq_self_eq_true _

/-- Flushing twice is the same as flushing once. -/
lemma flush_idem (t : List KernelRoute) :
    ip_route_flush_proto_zebra (ip_route_flush_proto_zebra t) =
      ip_route_flush_proto_zebra t := by
  unfold ip_route_flush_proto_zebra
  rw [List.filter_filter]
  simp

/-- A freshly flushed table carries no zebra-tagged entry. -/
lemma zebra_routes_flush (t : List KernelRoute) :
    zebra_routes (ip_route_flush_proto_zebra t) = [] := by
  unfold zebra_routes ip_route_flush_proto_zebra
  rw [List.filter_filter]
  refine List.filter_eq_nil_iff.mpr ?_
  intro a _
  simp [bne]

/-- C1: for every set of alive spines in the hardcoded 2-spine domain, the
    decision computes ratio = failed / total and picks FailClosed exactly
    when ratio < threshold and FailStatic exactly when ratio >= threshold;
    1 of 2 members down gives ratio 1/2 and FailStatic, 0 down gives ratio
    0 and FailClosed, and the FailStatic branch issues no flow action. -/
theorem spine_degradation_decision (alive_spines : Finset String)
    (_h : alive_spines ⊆ ({"sp1", "sp2"} : Finset String)) :
    (recompute_decision alive_spines = some Regime.FailClosed ↔
        degradation_ratio alive_spines < capacity_degradation_threshold) ∧
    (recompute_decision alive_spines = some Regime.FailStatic ↔
        capacity_degradation_threshold ≤ degradation_ratio alive_spines) ∧
    (recompute_decision alive_spines = some Regime.FailStatic →
        recompute_actions alive_spines = some []) ∧
    (alive_spines.card = 1 →
        degradation_ratio alive_spines = 1 / 2 ∧
        recompute_decision alive_spines = some Regime.FailStatic) ∧
    (alive_spines.card = 2 →
        degradation_ratio alive_spines = 0 ∧
        recompute_decision alive_spines = some Regime.FailClosed) := by
  have hr := degradation_ratio_card alive_spines
  refine ⟨?_, ?_, ?_, ?_, ?_⟩
  · have hd := recompute_decision_eq alive_spines
    constructor
    · intro hc
      by_contra hnot
      rw [if_neg hnot] at hd
      rw [hd] at hc
      simp at hc
    · intro hlt
      rw [hd, if_pos hlt]
  · have hd := recompute_decision_eq alive_spines
    constructor
    · intro hc
      by_contra hnot
      have hlt := not_le.mp hnot
      rw [if_pos hlt] at hd
      rw [hd] at hc
      simp at hc
    · intro hle
      rw [hd, if_neg (not_lt.mpr hle)]
  · have hd := recompute_decision_eq alive_spines
    have ha := recompute_actions_eq alive_spines
    intro hc
    by_cases hlt : degradation_ratio alive_spines < capacity_degradation_threshold
    · rw [if_pos hlt] at hd
      rw [hd] at hc
      simp at hc
    · rw [ha, if_neg hlt]
  · intro hcard
    have hval : degradation_ratio alive_spines = 1 / 2 := by
      rw [hr, hcard]
      norm_num
    have hnl : ¬ degradation_ratio alive_spines < capacity_degradation_threshold := by
      rw [hval]
      unfold capacity_degradation_threshold
      norm_num
    refine ⟨hval, ?_⟩
    rw [recompute_decision_eq, if_neg hnl]
  · intro hcard
    have hval : degradation_ratio alive_spines = 0 := by
      rw [hr, hcard]
      norm_num
    have hlt : degradation_ratio alive_spines < capacity_degradation_threshold := by
      rw [hval]
      unfold capacity_degradation_threshold
      norm_num
    refine ⟨hval, ?_⟩
    rw [recompute_decision_eq, if_pos hlt]

/-- C1 witness: with only sp1 alive (1 of 2 down) the ratio is 1/2 and the
    decision is FailStatic. -/
theorem spine_degradation_decision_witness :
    degradation_ratio {"sp1"} = 1 / 2 ∧
    recompute_decision {"sp1"} = some Regime.FailStatic :=
  (spine_degradation_decision {"sp1"} (by decide)).2.2.2.1 (by decide)

/-- C2 counterexample: one single failed probe already flips the reported
    state away from healthy, so no hysteresis threshold F >= 2 governs the
    transition and the state does change on the basis of one probe. -/
theorem monitor_single_probe_counterexample :
    monitor_ctrl_run initial_health_state [false] ≠ initial_health_state ∧
    monitor_ctrl_run initial_health_state [false] = "unknown" := by decide

/-- C2 amended: the monitor keeps no counters at all; after any nonempty
    probe sequence the reported state is a function of the last probe alone,
    healthy on success and unknown on failure (hysteresis with F = S = 1). -/
theorem monitor_last_probe_determines_state (s : String) (ps : List Bool) (p : Bool) :
    monitor_ctrl_run s (ps ++ [p]) = if p then "healthy" else "unknown" := by
  rw [monitor_ctrl_run_append, monitor_ctrl_step_eq]

/-- C3: snapshot_routes clears the whole last_dynamic_routes dict before
    capturing, so a capture failure (here a RIB query yielding nothing
    parseable) discards the previously stored snapshot for bgp1 instead of
    retaining it. -/
theorem snapshot_failure_wipes_previous :
    List.lookup ("bgp1") stEx.last_dynamic_routes = some snapEx ∧
    List.lookup ("bgp1")
        ((snapshot_routes (fun _ => none) stEx).last_dynamic_routes) = none ∧
    (snapshot_routes (fun _ => none) stEx).last_dynamic_routes = [] :=
  ⟨rfl, rfl, rfl⟩

/-- C4: the table recover_router leaves behind does not depend on whether
    the daemon restart succeeds, every zebra-tagged route in it comes from
    the snapshot, every snapshot prefix is matched by some entry, and a
    nonempty snapshot never yields an empty table. -/
theorem recover_preserves_fallback_routes (snap : List RouteRecord)
    (table : List KernelRoute) (daemon_ok : Bool) :
    (recover_router snap table daemon_ok).table = (recover_router snap table true).table ∧
    (∀ x ∈ zebra_routes (recover_router snap table daemon_ok).table,
        ∃ r ∈ snap, x.pfx = r.pfx ∧ x.via = r.nexthop) ∧
    (∀ r ∈ snap, ∃ x ∈ (recover_router snap table daemon_ok).table, x.pfx = r.pfx) ∧
    (snap ≠ [] → (recover_router snap table daemon_ok).table ≠ []) := by
  refine ⟨rfl, ?_, ?_, ?_⟩
  · intro x hx
    have hx2 := List.mem_filter.mp hx
    have hz : x.proto = "zebra" := by simpa using hx2.2
    rcases reinstall_mem_src snap (ip_route_flush_proto_zebra table) x hx2.1 with h1 | ⟨r, hr, hx3⟩
    · have := List.mem_filter.mp h1
      have hnz : x.proto ≠ "zebra" := by simpa using this.2
      exact absurd hz hnz
    · exact ⟨r, hr, by rw [hx3], by rw [hx3]⟩
  · intro r hr
    exact reinstall_covers snap (ip_route_flush_proto_zebra table) r hr
  · intro h
    exact reinstall_ne_nil snap (ip_route_flush_proto_zebra table) h

/-- C4 witness: recovering with the one-record snapshot of the end-to-end
    scenario onto an empty table leaves a nonempty table even when the
    daemon restart fails. -/
theorem recover_preserves_fallback_routes_witness :
    (recover_router snapEx [] false).table ≠ [] :=
  (recover_preserves_fallback_routes snapEx [] false).2.2.2 (by decide)

/-- C5: running recover_router twice with the same stored snapshot yields
    the identical table (idempotence), and the zebra-tagged routes a run
    installs never contain a duplicated prefix. -/
theorem recover_idempotent (snap : List RouteRecord) (table : List KernelRoute)
    (ok1 ok2 : Bool) :
    (recover_router snap (recover_router snap table ok1).table ok2).table =
      (recover_router snap table ok1).table ∧
    ((zebra_routes (recover_router snap table ok1).table).map
        (fun r => r.pfx)).Nodup := by
  constructor
  · show reinstall_snapshot
        (ip_route_flush_proto_zebra
          (reinstall_snapshot (ip_route_flush_proto_zebra table) snap)) snap =
      reinstall_snapshot (ip_route_flush_proto_zebra table) snap
    rw [reinstall_flush, flush_idem]
  · show ((zebra_routes
        (reinstall_snapshot (ip_route_flush_proto_zebra table) snap)).map
        (fun r => r.pfx)).Nodup
    apply reinstall_zebra_nodup
    rw [zebra_routes_flush]
    exact List.nodup_nil

/-- C6: on the end-to-end scenario snapshot, recovery issues only a plain
    ip route add (no administrative-distance argument) between the flush and
    the daemon restart, and _install_fail_static as written issues only the
    RIB query, never the distance-250 vtysh install. -/
theorem recover_installs_no_admin_distance :
    recover_router_cmds snapEx =
      [RouterCmd.flushProtoZebra,
       RouterCmd.ipRouteAdd ("10.0.2.0/24") ("10.0.12.2"),
       RouterCmd.setupFrr] ∧
    (recover_router_cmds snapEx).all (fun c => !(is_admin_distance_install c)) = true ∧
    install_fail_static_cmds = [RouterCmd.vtyshShowIpBgpJson] :=
  ⟨rfl, rfl, rfl⟩

/-- C7 counterexample: evaluating the decision body with zero members
    raises the division by zero (no decision) instead of returning
    FailStatic. -/
theorem zero_member_evaluation_counterexample :
    recompute_routes_body capacity_degradation_threshold 0 ∅ = none ∧
    recompute_routes_body capacity_degradation_threshold 0 ∅ ≠
      some (Regime.FailStatic, []) :=
  ⟨rfl, by decide⟩

/-- C7 amended: the code has no zero-member handling at all: with total = 0
    the body returns no decision for every threshold and member set, while
    the module itself always evaluates with the hardcoded total 2 and hence
    always produces a decision. -/
theorem zero_member_evaluation_behavior :
    (∀ (threshold : ℚ) (alive_spines : Finset String),
        recompute_routes_body threshold 0 alive_spines = none) ∧
    (∀ alive_spines : Finset String, (recompute_routes alive_spines).isSome = true) := by
  constructor
  · intro thr alive
    rfl
  · intro alive
    rw [recompute_routes_eq]
    split <;> rfl

/-- C8: the valid-and-best filter exists in the comprehension as written
    (first conjunct evaluates it on a mixed RIB and it keeps exactly the
    valid-and-best record), but the capture path never reaches it: with
    json unbound every capture returns the caught NameError and the store
    ends up with no snapshot at all. -/
theorem snapshot_filter_dead_code :
    snapshot_of_routes ribEx = some [⟨"10.0.2.0/24", "10.0.12.2", "65002"⟩] ∧
    capture_router (fun _ => some ribEx) ("bgp1") = none ∧
    (snapshot_routes (fun _ => some ribEx) stEx).last_dynamic_routes = [] :=
  ⟨rfl, rfl, rfl⟩

/-- C9: the module never binds the name json, every per-router capture body
    raises and is caught, and therefore every call to snapshot_routes
    leaves last_dynamic_routes empty, discarding whatever was stored. -/
theorem snapshot_routes_always_empty (rib_of : String → Option RIB)
    (st : ExperimentState) (router : String) :
    json_is_bound = false ∧
    (snapshot_routes rib_of st).last_dynamic_routes = [] ∧
    List.lookup router (snapshot_routes rib_of st).last_dynamic_routes = none :=
  ⟨rfl, rfl, rfl⟩

/-- C10: starting from the initial healthy state, the monitor only ever
    reports healthy or unknown; suspect and down are never produced. -/
theorem health_state_two_valued (pings : List Bool) :
    (monitor_ctrl_run initial_health_state pings = "healthy" ∨
     monitor_ctrl_run initial_health_state pings = "unknown") ∧
    monitor_ctrl_run initial_health_state pings ≠ "suspect" ∧
    monitor_ctrl_run initial_health_state pings ≠ "down" := by
  have h := monitor_ctrl_run_two_valued pings initial_health_state (Or.inl rfl)
  refine ⟨h, ?_, ?_⟩
  · rcases h with h1 | h1 <;> rw [h1] <;> decide
  · rcases h with h1 | h1 <;> rw [h1] <;> decide
